import Mathlib

/-!
Shallow embedding of the `red-fileops` scan pipeline, translated from
`src/red_fileops/modules/_scan/classes.py` and
`src/red_fileops/core/utils/converters/str_converters/methods.py`.

The filesystem is modelled as an explicit immutable snapshot (`FSys`):
`stat` plays the role of `pathlib.Path.stat` / `is_file` / `is_dir` /
`exists` (symlink targets are recorded in resolved form), and `children`
plays the role of `os.scandir` / `Path.iterdir`.  Code that can raise a
Python exception is modelled with `Except Err`; `print` logging has no
semantic effect and is not modelled.
-/

namespace RedFileOps

/-- Failure conditions raised by the Python source (exceptions), tagged with
the spec's error taxonomy.  `invalidState` models the `AttributeError` raised
when a method dereferences `scan_results` while it is still `None`;
`scanFailure` and `dumpFailure` model the source's wrap-and-reraise
`Exception(...)` blocks inside `run_scan` / `save_to_json`, with the original
cause attached. -/
inductive Err
  | notFound
  | notADirectory
  | invalidArgument
  | typeError
  | invalidState
  | scanFailure (cause : Err)
  | dumpFailure (cause : Err)
deriving DecidableEq

deriving instance DecidableEq for Except

/-- Resolved classification of one filesystem node, as observed through the
Python predicates `Path.is_file` / `Path.is_dir` / `Path.is_symlink`
(the first two follow symlinks, so a symlink is recorded together with what
it resolves to).  `file` carries `st_size` of the regular file;
`symlinkFile` carries `st_size` of the link's target.  `special` stands for
nodes that are neither regular files nor directories (fifo, socket, device). -/
inductive NodeKind
  | file (size : Nat)
  | dir
  | symlinkFile (size : Nat)
  | symlinkDir
  | symlinkBroken
  | special
deriving DecidableEq

/-- Python `is_file()` (follows symlinks). -/
def NodeKind.is_file : NodeKind → Bool
  | .file _ => true
  | .symlinkFile _ => true
  | _ => false

/-- Python `is_dir()` (follows symlinks). -/
def NodeKind.is_dir : NodeKind → Bool
  | .dir => true
  | .symlinkDir => true
  | _ => false

/-- Python `is_symlink()`. -/
def NodeKind.is_symlink : NodeKind → Bool
  | .symlinkFile _ => true
  | .symlinkDir => true
  | .symlinkBroken => true
  | _ => false

/-- Whether `Path.exists()` is true for a node of this kind
(`exists` follows symlinks, so a dangling symlink does not exist). -/
def NodeKind.resolves : NodeKind → Bool
  | .symlinkBroken => false
  | _ => true

/-- `st_size` as read by the source: it is only ever read under an
`is_file()` guard, so the value for the remaining kinds is never used. -/
def NodeKind.st_size : NodeKind → Nat
  | .file n => n
  | .symlinkFile n => n
  | _ => 0

/-- Follow-symlink stat result for one path: its resolved kind and the
`st_ctime` / `st_mtime` stamps (kept as integers; the `pendulum`
ISO-8601 formatting applied by the source is injective and abstracted away). -/
structure Stat where
  kind : NodeKind
  ctime : Int
  mtime : Int
deriving DecidableEq

/-- One `os.scandir` / `Path.iterdir` entry: the child's path and its
resolved kind (the entry's `is_file` / `is_dir` / `is_symlink` / `stat`). -/
structure DirEntry where
  path : String
  kind : NodeKind
deriving DecidableEq

/-- A filesystem snapshot.  `stat p = none` means `p` does not exist (and a
lstat would also fail); `children` lists the direct children a directory
enumeration of `p` yields.  Consistency between the two fields is supplied by
each concrete instance. -/
structure FSys where
  stat : String → Option Stat
  children : String → List DirEntry

/-- Python `Path(p).exists()`. -/
def FSys.pathExists (fs : FSys) (p : String) : Bool :=
  match fs.stat p with
  | none => false
  | some st => st.kind.resolves

/-- Python `Path(p).is_file()`. -/
def FSys.is_file (fs : FSys) (p : String) : Bool :=
  match fs.stat p with
  | none => false
  | some st => st.kind.is_file

/-- Python `Path(p).is_dir()`. -/
def FSys.is_dir (fs : FSys) (p : String) : Bool :=
  match fs.stat p with
  | none => false
  | some st => st.kind.is_dir

/-- Python `Path(p).stat()`, which follows symlinks and raises
`FileNotFoundError` on a missing path or a dangling symlink
(modelled as `none`). -/
def FSys.statFollow (fs : FSys) (p : String) : Option Stat :=
  match fs.stat p with
  | none => none
  | some st => if st.kind = .symlinkBroken then none else some st

/-- Python `Path(p).stat().st_size`, only ever read under an `is_file` guard. -/
def FSys.statSize (fs : FSys) (p : String) : Nat :=
  match fs.stat p with
  | none => 0
  | some st => st.kind.st_size

/-- Python `os.scandir(p)`: raises `FileNotFoundError` when `p` is missing or
a dangling symlink, `NotADirectoryError` when `p` resolves to a non-directory,
and otherwise yields the direct children. -/
def FSys.scandirE (fs : FSys) (p : String) : Except Err (List DirEntry) :=
  match fs.stat p with
  | none => .error .notFound
  | some st =>
    match st.kind with
    | .dir => .ok (fs.children p)
    | .symlinkDir => .ok (fs.children p)
    | .symlinkBroken => .error .notFound
    | _ => .error .notADirectory

/-- Python `str(pathlib.Path(s))` for the cases exercised here: the empty
string is normalized to `"."`; other strings are kept as written. -/
def pyPath (s : String) : String :=
  if s = "" then "." else s

/-- Split a character list at `'/'` (accumulator holds the current
component reversed); a structurally recursive stand-in for
`String.splitOn "/"`. -/
def splitSlashAux : List Char → List Char → List String
  | [], acc => [String.mk acc.reverse]
  | c :: rest, acc =>
    if c = '/' then String.mk acc.reverse :: splitSlashAux rest []
    else splitSlashAux rest (c :: acc)

/-- The `/`-separated components of a path string. -/
def splitSlash (s : String) : List String :=
  splitSlashAux s.data []

/-- Whether the path string is absolute (starts with `'/'`). -/
def isAbsolute (s : String) : Bool :=
  match s.data with
  | '/' :: _ => true
  | _ => false

/-- Simplified model of `Path(p).name`: the last nonempty `/`-separated
component (empty for the root path). -/
def pathName (p : String) : String :=
  (((splitSlash p).filter (fun c => decide (c ≠ ""))).getLastD "")

/-- Simplified model of `str(Path(p).parent)`: drop the last nonempty
component, keeping absolute paths absolute and mapping a single relative
component to `"."`. -/
def pathParent (p : String) : String :=
  let comps := (splitSlash p).filter (fun c => decide (c ≠ ""))
  let par := comps.dropLast
  if isAbsolute p then "/" ++ String.intercalate "/" par
  else if par = [] then "."
  else String.intercalate "/" par

/-- A Python value handed to a pydantic `path` field validator: a `str`, a
`pathlib.Path`, `None`, or a value of any other type. -/
inductive PyVal
  | str (s : String)
  | path (s : String)
  | noneV
  | other
deriving DecidableEq

/-- Unit suffixes of `bytes_to_human_readable`. -/
def humanSuffixes : List String :=
  ["B", "KB", "MB", "GB", "TB", "PB", "EB", "ZB", "YB"]

/-- The `while size_in_bytes >= 1024 and i < len(suffixes) - 1` loop of
`bytes_to_human_readable`, computing the final suffix index.  After `i`
divisions the Python value is the real number `n / 1024 ^ i`, and its
comparison with `1024` agrees with the floor-division comparison used here.
The loop body runs at most `8` times (it increments `i`, which the guard
bounds by `8`), so a fuel of `8` makes the recursion structural without
changing the result. -/
def humanLoop : Nat → Nat → Nat → Nat
  | 0, _, i => i
  | fuel + 1, m, i =>
    if 1024 ≤ m ∧ i < 8 then humanLoop fuel (m / 1024) (i + 1) else i

/-- Suffix index chosen by `bytes_to_human_readable` for input `n`. -/
def humanUnitIndex (n : Nat) : Nat :=
  humanLoop 8 n 0

/-- Round `num / den` to the nearest integer, ties to even — exactly how
Python's float formatting rounds the (here exactly representable) value to
one decimal place. -/
def roundHalfEven (num den : Nat) : Nat :=
  let q := num / den
  let r := num % den
  if 2 * r < den then q
  else if den < 2 * r then q + 1
  else if q % 2 = 0 then q else q + 1

/-- `bytes_to_human_readable` from
`core/utils/converters/str_converters/methods.py`.  `none` models the Python
argument `None`.  After the unit loop the Python float is exactly
`n / 1024 ^ i` (division by a power of two is exact for `n < 2 ^ 53`), and
`f-string` `:.1f` formatting rounds that value half-to-even to one decimal,
modelled here in exact rational arithmetic over `10 * n / 1024 ^ i`. -/
def bytes_to_human_readable : Option Nat → String
  | none => "0 bytes"
  | some n =>
    let i := humanUnitIndex n
    let tenths := roundHalfEven (10 * n) (1024 ^ i)
    let suffix := humanSuffixes.getD i ""
    let intPart := tenths / 10
    let fracPart := tenths % 10
    s!"{intPart}.{fracPart} {suffix}"

/-- `ScanEntity`: stores only the validated `path` string; every other field
of the pydantic model is computed on read. -/
structure ScanEntity where
  path : String
deriving DecidableEq

/-- `ScanEntity.validate_path`: a `Path` is formatted to its string, a `str`
is kept, anything else raises `TypeError`. -/
def ScanEntity.validate_path : PyVal → Except Err String
  | .path s => .ok s
  | .str s => .ok s
  | .noneV => .error .typeError
  | .other => .error .typeError

/-- Computed field `name`: `Path(self.path).name`. -/
def ScanEntity.name (e : ScanEntity) : String :=
  pathName e.path

/-- Computed field `entity_type`: `"file"` when `Path(self.path).is_file()`,
otherwise `"dir"` — there is no existence check, so a missing path lands in
the `else` branch. -/
def ScanEntity.entity_type (fs : FSys) (e : ScanEntity) : String :=
  if fs.is_file e.path then "file" else "dir"

/-- Computed field `parent_dir`: `f"{Path(self.path).parent}"`. -/
def ScanEntity.parent_dir (e : ScanEntity) : String :=
  pathParent e.path

/-- Computed field `created_at`: `Path(self.path).stat().st_ctime`, which
raises `FileNotFoundError` when the path does not resolve. -/
def ScanEntity.created_at (fs : FSys) (e : ScanEntity) : Except Err Int :=
  match fs.statFollow e.path with
  | none => .error .notFound
  | some st => .ok st.ctime

/-- Computed field `modified_at`: `Path(self.path).stat().st_mtime`. -/
def ScanEntity.modified_at (fs : FSys) (e : ScanEntity) : Except Err Int :=
  match fs.statFollow e.path with
  | none => .error .notFound
  | some st => .ok st.mtime

/-- Computed field `size_in_bytes`: a file's `st_size`; for a directory the
sum of `child.stat().st_size` over direct children with
`child.is_file() and not child.is_symlink()`; implicitly `None` when the path
is neither a file nor a directory (missing, dangling symlink, special). -/
def ScanEntity.size_in_bytes (fs : FSys) (e : ScanEntity) : Option Nat :=
  if fs.is_file e.path then some (fs.statSize e.path)
  else if fs.is_dir e.path then
    some ((((fs.children e.path).filter
      (fun c => c.kind.is_file && !c.kind.is_symlink)).map
      (fun c => c.kind.st_size)).sum)
  else none

/-- Computed field `size_str`: `bytes_to_human_readable(self.size_in_bytes)`
inside a `try` that maps any exception to `None`; the converter cannot raise
on an `Option Nat` input, so the result is always `some`. -/
def ScanEntity.size_str (fs : FSys) (e : ScanEntity) : Option String :=
  some (bytes_to_human_readable (e.size_in_bytes fs))

/-- `ScanResults`: the pydantic stored fields.  `none` for `files` / `dirs`
models the Python default `None` (distinct from an empty list). -/
structure ScanResults where
  scan_timestamp : Option String
  scan_target : Option String
  files : Option (List ScanEntity)
  dirs : Option (List ScanEntity)
deriving DecidableEq

/-- Computed field `count_dirs`: `0` when `dirs` is `None`, else its length. -/
def ScanResults.count_dirs (r : ScanResults) : Nat :=
  match r.dirs with
  | none => 0
  | some l => l.length

/-- Computed field `count_files`: `0` when `files` is `None`, else its length. -/
def ScanResults.count_files (r : ScanResults) : Nat :=
  match r.files with
  | none => 0
  | some l => l.length

/-- Computed field `all`.  The source first replaces a `None` `files` or
`dirs` with `[]` (an in-place mutation of the model), then merges dirs
followed by files, skipping entities already present (pydantic equality,
i.e. equality of the stored `path`).  Returned as the merged list together
with the mutated record. -/
def ScanResults.all (r : ScanResults) : List ScanEntity × ScanResults :=
  let fl := r.files.getD []
  let dl := r.dirs.getD []
  let r' : ScanResults := { r with files := some fl, dirs := some dl }
  let m1 := dl.foldl (fun acc f => if f ∈ acc then acc else acc ++ [f]) []
  let m2 := fl.foldl (fun acc f => if f ∈ acc then acc else acc ++ [f]) m1
  (m2, r')

/-- `ScanTarget`: stores the validated root path. -/
structure ScanTarget where
  path : String
deriving DecidableEq

/-- `ScanTarget.validate_path`: asserts the value is not `None` and is a
`str` or `Path`, then converts a `str` to a `Path`.  Note there is no
emptiness check: the empty string is accepted (and `Path("")` is `"."`). -/
def ScanTarget.validate_path : PyVal → Except Err String
  | .noneV => .error .invalidArgument
  | .str s => .ok (pyPath s)
  | .path s => .ok s
  | .other => .error .typeError

/-- Property `exists`: `self.path.exists()`. -/
def ScanTarget.exists (fs : FSys) (t : ScanTarget) : Bool :=
  fs.pathExists t.path

/-- `ScanTarget.get_files`: when the target is missing it prints a warning
and returns `None` (modelled `.ok none`); otherwise it scans the directory
and wraps every `is_file()` entry in a `ScanEntity`.  A scan failure on an
existing-but-non-directory path propagates. -/
def ScanTarget.get_files (fs : FSys) (t : ScanTarget) :
    Except Err (Option (List ScanEntity)) :=
  if t.exists fs then
    match fs.scandirE t.path with
    | .error e => .error e
    | .ok entries =>
      .ok (some ((entries.filter (fun en => en.kind.is_file)).map
        (fun en => { path := en.path })))
  else .ok none

/-- `ScanTarget.get_dirs`: no existence check at all — `os.scandir` runs
directly, so a missing path raises `FileNotFoundError`; otherwise every
`is_dir()` entry is wrapped in a `ScanEntity`. -/
def ScanTarget.get_dirs (fs : FSys) (t : ScanTarget) :
    Except Err (List ScanEntity) :=
  match fs.scandirE t.path with
  | .error e => .error e
  | .ok entries =>
    .ok ((entries.filter (fun en => en.kind.is_dir)).map
      (fun en => { path := en.path }))

/-- Error wrapping of `run_scan`'s `try` blocks: `FileNotFoundError` is
re-raised as `FileNotFoundError`, any other exception is wrapped in a
generic `Exception` (modelled `scanFailure`). -/
def wrapScanErr : Err → Err
  | .notFound => .notFound
  | e => .scanFailure e

/-- `ScanTarget.run_scan`: returns `None` when the target is missing,
otherwise collects `get_files` / `get_dirs` (wrapping their exceptions) and
packs them in a `ScanResults` whose `scan_target` is the target path and
whose `scan_timestamp` is still `None`. -/
def ScanTarget.run_scan (fs : FSys) (t : ScanTarget) :
    Except Err (Option ScanResults) :=
  if t.exists fs then
    match t.get_files fs with
    | .error e => .error (wrapScanErr e)
    | .ok fl =>
      match t.get_dirs fs with
      | .error e => .error (wrapScanErr e)
      | .ok dl =>
        .ok (some { scan_timestamp := none, scan_target := some t.path,
                    files := fl, dirs := some dl })
  else .ok none

/-- One entity as produced by `ScanEntity.model_dump()`: the stored `path`
plus every computed field, each evaluated at serialization time. -/
structure EntityDump where
  path : String
  name : String
  entity_type : String
  parent_dir : String
  created_at : Int
  modified_at : Int
  size_in_bytes : Option Nat
  size_str : Option String
deriving DecidableEq

/-- `ScanEntity.model_dump()`: evaluates every computed field; the stat
behind `created_at` / `modified_at` raises `FileNotFoundError` when the
path no longer resolves, aborting the dump of this entity. -/
def ScanEntity.model_dump (fs : FSys) (e : ScanEntity) :
    Except Err EntityDump := do
  let c ← e.created_at fs
  let m ← e.modified_at fs
  .ok { path := e.path, name := e.name, entity_type := e.entity_type fs,
        parent_dir := e.parent_dir, created_at := c, modified_at := m,
        size_in_bytes := e.size_in_bytes fs, size_str := e.size_str fs }

/-- Dump a list of entities in order, aborting at the first failing entity
(as the serialization of the `files` / `dirs` / `all` lists does). -/
def dumpList (fs : FSys) : List ScanEntity → Except Err (List EntityDump)
  | [] => .ok []
  | e :: rest => do
    let d ← e.model_dump fs
    let ds ← dumpList fs rest
    .ok (d :: ds)

/-- `ScanResults.model_dump()`: stored fields plus the computed fields
`all`, `count_dirs`, `count_files`, with every nested entity dumped.  The
`all` computed field also normalizes a `None` `files` / `dirs` to `[]` as a
side effect, which does not change the dumped data and is not tracked here. -/
structure ResultsDump where
  scan_timestamp : Option String
  scan_target : Option String
  files : List EntityDump
  dirs : List EntityDump
  allEntities : List EntityDump
  count_dirs : Nat
  count_files : Nat
deriving DecidableEq

/-- Serialization of a whole `ScanResults` (the `model_dump` consumed by
`json.dumps`): every entity's derived fields are evaluated before any output
exists; the first per-entity stat failure aborts the whole dump. -/
def ScanResults.model_dump (fs : FSys) (r : ScanResults) :
    Except Err ResultsDump := do
  let fd ← dumpList fs (r.files.getD [])
  let dd ← dumpList fs (r.dirs.getD [])
  let ad ← dumpList fs (r.all).1
  .ok { scan_timestamp := r.scan_timestamp, scan_target := r.scan_target,
        files := fd, dirs := dd, allEntities := ad,
        count_dirs := r.count_dirs, count_files := r.count_files }

/-- Modelled from the spec: the constant `DEFAULT_SCAN_RESULTS_FILE` is
imported from `red_fileops.core.constants`, a module not among the provided
sources.  The repository's draft scanner writes to
`"scan_results/results.json"` and its entry script re-reads
`"./scan_results/results.json"`, so that value is used here; no claim
depends on the exact string, only on it being a fixed path distinct from a
caller-chosen output path. -/
def DEFAULT_SCAN_RESULTS_FILE : String :=
  "scan_results/results.json"

/-- A completed file write: the path handed to `open(..., "w")` and the
serialized snapshot written in full (the JSON encoding of a `ResultsDump`
is injective and abstracted away). -/
structure WriteOp where
  path : String
  data : ResultsDump
deriving DecidableEq

/-- `Scanner`: stored fields.  `scan_path` is kept in validated form (the
field validator converts a `str` to a `Path` exactly as
`ScanTarget.validate_path` does); `target` / `scan_results` /
`scan_timestamp` default to `None`. -/
structure Scanner where
  scan_path : String
  target : Option ScanTarget
  scan_results : Option ScanResults
  scan_timestamp : Option String
deriving DecidableEq

/-- Body of `save_to_json` once `output_file` has been coerced to a path:
`json.dumps(self.scan_results.model_dump(), indent=2)` runs first — raising
a wrapped exception when `scan_results` is `None` (`AttributeError`,
modelled `invalidState`) or when an entity dump fails — and only after the
full string exists is the output file opened and written. -/
def Scanner.saveCore (fs : FSys) (s : Scanner) (p : String) :
    Except Err WriteOp :=
  match s.scan_results with
  | none => .error (.dumpFailure .invalidState)
  | some r =>
    match r.model_dump fs with
    | .error e => .error (.dumpFailure e)
    | .ok d => .ok { path := p, data := d }

/-- `Scanner.save_to_json(output_file)`: asserts `output_file` is not `None`
and is a `str` or `Path`, converts a `str` to a `Path`, then runs the
serialize-then-write body. -/
def Scanner.save_to_json (fs : FSys) (s : Scanner) (output_file : PyVal) :
    Except Err WriteOp :=
  match output_file with
  | .noneV => .error .invalidArgument
  | .other => .error .typeError
  | .str p => Scanner.saveCore fs s (pyPath p)
  | .path p => Scanner.saveCore fs s p

/-- Observable outcome of one `Scanner.scan` call: the scanner's fields
after the call, the returned value (`None` when the target was missing),
the file write performed (if any), and the parent directory created by
`mkdir(parents=True)` (if the persist branch created one). -/
structure ScanState where
  scanner : Scanner
  ret : Option ScanResults
  written : Option WriteOp
  mkdirParent : Option String
deriving DecidableEq

/-- `Scanner.scan(as_str, save_results, output_file)` (`as_str` only affects
a discarded local list and is not modelled):
rebuilds `target` from `scan_path`; logs the platform (no effect); returns
`None` early when the target is missing — before the timestamp step; sets
`scan_timestamp` once (idempotent); runs `run_scan`, catching and merely
printing its exceptions so that `scan_results` keeps its prior value in that
case; then dereferences `scan_results` to stamp the timestamp
(`AttributeError`, modelled `invalidState`, when it is still `None`).  When
`save_results` is set it asserts `output_file` is present, creates the
missing parent directory of `output_file`, and calls `self.save_to_json()`
— with no argument, i.e. with the default `DEFAULT_SCAN_RESULTS_FILE` —
catching and merely printing any failure of the save. -/
def Scanner.scan (fs : FSys) (s : Scanner) (now : String)
    (save_results : Bool) (output_file : Option String) :
    Except Err ScanState :=
  let tgt : ScanTarget := { path := s.scan_path }
  let s1 := { s with target := some tgt }
  if tgt.exists fs then
    let ts := s1.scan_timestamp.getD now
    let s2 := { s1 with scan_timestamp := some ts }
    let newResults : Option ScanResults :=
      match tgt.run_scan fs with
      | .error _ => s2.scan_results
      | .ok v => v
    match newResults with
    | none => .error .invalidState
    | some r0 =>
      let r := { r0 with scan_timestamp := some ts }
      let s3 := { s2 with scan_results := some r }
      if save_results then
        match output_file with
        | none => .error .invalidArgument
        | some pth =>
          let par := pathParent (pyPath pth)
          let mk := if fs.pathExists par then none else some par
          match Scanner.save_to_json fs s3 (.str DEFAULT_SCAN_RESULTS_FILE) with
          | .error _ =>
            .ok { scanner := s3, ret := some r, written := none,
                  mkdirParent := mk }
          | .ok w =>
            .ok { scanner := s3, ret := some r, written := some w,
                  mkdirParent := mk }
      else
        .ok { scanner := s3, ret := some r, written := none,
              mkdirParent := none }
  else
    .ok { scanner := s1, ret := none, written := none, mkdirParent := none }

/-- Regular-file child sizes of a directory listing, as the spec phrases the
shallow size policy: direct children that are regular files and not
symbolic links (in this model exactly the `NodeKind.file` entries). -/
def regularFileSizes (l : List DirEntry) : List Nat :=
  l.filterMap (fun c =>
    match c.kind with
    | .file n => some n
    | _ => none)

/-! Concrete filesystem snapshots and scanners used to instantiate the
theorems below. -/

/-- An empty filesystem: no path exists. -/
def fsEmpty : FSys where
  stat := fun _ => none
  children := fun _ => []

/-- A directory `/d` holding one regular 100-byte file, one subdirectory
and one symlink resolving to a 7-byte file. -/
def fsC1 : FSys where
  stat := fun p =>
    if p = "/d" then some { kind := .dir, ctime := 0, mtime := 0 }
    else if p = "/d/f" then some { kind := .file 100, ctime := 1, mtime := 2 }
    else if p = "/d/sub" then some { kind := .dir, ctime := 0, mtime := 0 }
    else if p = "/d/link" then some { kind := .symlinkFile 7, ctime := 0, mtime := 0 }
    else none
  children := fun p =>
    if p = "/d" then
      [{ path := "/d/f", kind := .file 100 },
       { path := "/d/sub", kind := .dir },
       { path := "/d/link", kind := .symlinkFile 7 }]
    else []

/-- A freshly constructed scanner aimed at a missing path. -/
def scannerMissing : Scanner :=
  { scan_path := "/does/not/exist", target := none,
    scan_results := none, scan_timestamp := none }

/-- An empty directory `/data`; nothing else exists (in particular the
caller-chosen output directory `/tmp/out` does not). -/
def fsPersist : FSys where
  stat := fun p => if p = "/data" then some { kind := .dir, ctime := 0, mtime := 0 } else none
  children := fun _ => []

/-- A freshly constructed scanner aimed at `/data`. -/
def scannerPersist : Scanner :=
  { scan_path := "/data", target := none,
    scan_results := none, scan_timestamp := none }

/-- A directory `/d7` whose only direct child is a dangling symlink. -/
def fsBrokenChild : FSys where
  stat := fun p => if p = "/d7" then some { kind := .dir, ctime := 0, mtime := 0 } else none
  children := fun p =>
    if p = "/d7" then [{ path := "/d7/broken", kind := .symlinkBroken }] else []

/-- A directory `/w` with a regular file, a subdirectory and a special
(non-file, non-directory) child. -/
def fsMixed : FSys where
  stat := fun p => if p = "/w" then some { kind := .dir, ctime := 0, mtime := 0 } else none
  children := fun p =>
    if p = "/w" then
      [{ path := "/w/a", kind := .file 3 },
       { path := "/w/sub", kind := .dir },
       { path := "/w/x", kind := .special }]
    else []

/-- A scanner whose previously collected results reference an entity whose
path has vanished from the (empty-directory) filesystem `/d8`. -/
def fsVanished : FSys where
  stat := fun p => if p = "/d8" then some { kind := .dir, ctime := 0, mtime := 0 } else none
  children := fun _ => []

/-- Scanner state after a scan whose entity `/d8/gone` has since vanished. -/
def scannerVanished : Scanner :=
  { scan_path := "/d8", target := some { path := "/d8" },
    scan_results := some { scan_timestamp := some "t", scan_target := some "/d8",
                           files := some [{ path := "/d8/gone" }], dirs := some [] },
    scan_timestamp := some "t" }

/-! Helper lemmas. -/

/-- Bind on `Except` after a success. -/
theorem exceptBindOk {α β : Type} (a : α) (f : α → Except Err β) :
    (Except.ok a >>= f : Except Err β) = f a := rfl

/-- Bind on `Except` after a failure. -/
theorem exceptBindErr {α β : Type} (e : Err) (f : α → Except Err β) :
    (Except.error e >>= f : Except Err β) = Except.error e := rfl

/-- Dumping an entity whose path no longer resolves fails with `notFound`
(the stat behind `created_at` raises). -/
theorem model_dump_none (fs : FSys) (e : ScanEntity)
    (h : fs.statFollow e.path = none) :
    e.model_dump fs = .error .notFound := by
  simp [ScanEntity.model_dump, ScanEntity.created_at, h, exceptBindErr]

/-- Dumping an entity whose path resolves succeeds. -/
theorem model_dump_some (fs : FSys) (e : ScanEntity) (st : Stat)
    (h : fs.statFollow e.path = some st) :
    e.model_dump fs = .ok
      { path := e.path, name := e.name, entity_type := e.entity_type fs,
        parent_dir := e.parent_dir, created_at := st.ctime,
        modified_at := st.mtime, size_in_bytes := e.size_in_bytes fs,
        size_str := e.size_str fs } := by
  simp [ScanEntity.model_dump, ScanEntity.created_at, ScanEntity.modified_at, h,
        exceptBindOk]

/-- The only exception a dumped entity list can raise is `notFound` — the
per-entity stat failure. -/
theorem dumpList_err_shape (fs : FSys) (l : List ScanEntity) :
    ∀ er : Err, dumpList fs l = .error er → er = .notFound := by
  induction l with
  | nil =>
    intro er h
    simp [dumpList] at h
  | cons a rest ih =>
    intro er h
    cases hst : fs.statFollow a.path with
    | none =>
      rw [dumpList, model_dump_none fs a hst, exceptBindErr] at h
      injection h with h'
      exact h'.symm
    | some st =>
      rw [dumpList, model_dump_some fs a st hst, exceptBindOk] at h
      cases hrest : dumpList fs rest with
      | error er2 =>
        rw [hrest, exceptBindErr] at h
        injection h with h'
        exact h' ▸ ih er2 hrest
      | ok ds =>
        rw [hrest, exceptBindOk] at h
        simp at h

/-- A dumped entity list containing a vanished entity fails with `notFound`. -/
theorem dumpList_err_of_mem (fs : FSys) (l : List ScanEntity) (e : ScanEntity)
    (hmem : e ∈ l) (hnone : fs.statFollow e.path = none) :
    dumpList fs l = .error .notFound := by
  induction l with
  | nil => cases hmem
  | cons a rest ih =>
    rcases List.mem_cons.mp hmem with rfl | hmem'
    · simp [dumpList, model_dump_none fs e hnone, exceptBindErr]
    · cases h : fs.statFollow a.path with
      | none => simp [dumpList, model_dump_none fs a h, exceptBindErr]
      | some st =>
        simp [dumpList, model_dump_some fs a st h, ih hmem',
              exceptBindOk, exceptBindErr]

/-- Serializing a `ScanResults` holding a vanished entity fails with
`notFound` before producing any dump. -/
theorem results_dump_err (fs : FSys) (r : ScanResults) (e : ScanEntity)
    (hmem : e ∈ r.files.getD [] ++ r.dirs.getD [])
    (hnone : fs.statFollow e.path = none) :
    r.model_dump fs = .error .notFound := by
  rcases List.mem_append.mp hmem with hf | hd
  · simp [ScanResults.model_dump,
          dumpList_err_of_mem fs _ e hf hnone, exceptBindErr]
  · cases hfd : dumpList fs (r.files.getD []) with
    | error er =>
      have her : er = Err.notFound := dumpList_err_shape fs _ er hfd
      subst her
      simp [ScanResults.model_dump, hfd, exceptBindErr]
    | ok ds =>
      simp [ScanResults.model_dump, hfd,
            dumpList_err_of_mem fs _ e hd hnone, exceptBindOk, exceptBindErr]

/-- The source's child filter (`is_file and not is_symlink`) keeps exactly
the regular-file children, so the summed sizes agree with the spec's
phrasing of the shallow policy. -/
theorem filter_size_eq_regular (l : List DirEntry) :
    ((l.filter (fun c => c.kind.is_file && !c.kind.is_symlink)).map
      (fun c => c.kind.st_size)).sum = (regularFileSizes l).sum := by
  induction l with
  | nil => rfl
  | cons c rest ih =>
    rcases c with ⟨p, k⟩
    cases k <;>
      simp [regularFileSizes, List.filter_cons, List.filterMap_cons,
            NodeKind.is_file, NodeKind.is_symlink, NodeKind.st_size] <;>
      simpa [regularFileSizes] using ih

/-- No child is both a file and a directory, so the two counts add up to
one count over the disjunction. -/
theorem countP_file_dir (l : List DirEntry) :
    l.countP (fun c => c.kind.is_file) + l.countP (fun c => c.kind.is_dir) =
      l.countP (fun c => c.kind.is_file || c.kind.is_dir) := by
  induction l with
  | nil => rfl
  | cons c rest ih =>
    rcases c with ⟨p, k⟩
    cases k <;>
      simp [List.countP_cons, NodeKind.is_file, NodeKind.is_dir] at ih ⊢ <;>
      omega

/-- The unit loop computes the capped base-1024 logarithm: starting at index
`i` with fuel `8 - i`, it stops at `min (i + log1024 m) 8`. -/
theorem humanLoop_eq (fuel : Nat) :
    ∀ i m : Nat, i + fuel = 8 →
      humanLoop fuel m i = min (i + Nat.log 1024 m) 8 := by
  induction fuel with
  | zero =>
    intro i m h
    have hi : i = 8 := by omega
    subst hi
    simp [humanLoop]
  | succ fuel ih =>
    intro i m h
    rw [humanLoop]
    by_cases hm : 1024 ≤ m
    · have hi : i < 8 := by omega
      rw [if_pos ⟨hm, hi⟩, ih (i + 1) (m / 1024) (by omega)]
      have hlog : Nat.log 1024 m = Nat.log 1024 (m / 1024) + 1 := by
        have hdiv := Nat.log_div_base 1024 m
        have hpos : 0 < Nat.log 1024 m := Nat.log_pos (by norm_num) hm
        omega
      omega
    · rw [if_neg (by tauto)]
      have hlog : Nat.log 1024 m = 0 := Nat.log_of_lt (by omega)
      omega

/-- The suffix index chosen by `bytes_to_human_readable` is the largest unit
whose scaled value stays below 1024, capped at the last defined unit. -/
theorem humanUnitIndex_eq (n : Nat) :
    humanUnitIndex n = min (Nat.log 1024 n) 8 := by
  simpa [humanUnitIndex] using humanLoop_eq 8 0 n rfl

/-! Claim theorems. -/

/-- C1: for every Entity whose path is an existing directory,
`size_in_bytes` equals the sum of the byte lengths of its direct children
that are regular files and not symbolic links; children that are
subdirectories or symlinks contribute nothing. -/
theorem C1_dir_size_shallow (fs : FSys) (p : String) (st : Stat)
    (hstat : fs.stat p = some st) (hdir : st.kind = NodeKind.dir) :
    ScanEntity.size_in_bytes fs { path := p } =
      some ((regularFileSizes (fs.children p)).sum) := by
  have hf : fs.is_file p = false := by
    simp [FSys.is_file, hstat, hdir, NodeKind.is_file]
  have hd : fs.is_dir p = true := by
    simp [FSys.is_dir, hstat, hdir, NodeKind.is_dir]
  simp [ScanEntity.size_in_bytes, hf, hd, filter_size_eq_regular]

/-- C1 witness: a directory with one 100-byte regular file, one
subdirectory and one symlink to a file has `size_in_bytes` 100. -/
theorem C1_dir_size_shallow_witness :
    ScanEntity.size_in_bytes fsC1 { path := "/d" } = some 100 := by
  have h := C1_dir_size_shallow fsC1 "/d"
    { kind := .dir, ctime := 0, mtime := 0 } rfl rfl
  simpa [fsC1, regularFileSizes] using h

/-- C2: a scan against a missing target returns `None` having set only
`target`; `scan_results` and `scan_timestamp` stay unset (the existence
check precedes the timestamp step), and a subsequent `save_to_json` fails
with the invalid-state condition instead of writing anything. -/
theorem C2_missing_target (fs : FSys) (s : Scanner) (now : String)
    (save_results : Bool) (output_file : Option String)
    (hmiss : fs.pathExists s.scan_path = false)
    (hres : s.scan_results = none) (hts : s.scan_timestamp = none) :
    Scanner.scan fs s now save_results output_file =
        .ok { scanner := { s with target := some { path := s.scan_path } },
              ret := none, written := none, mkdirParent := none } ∧
      ({ s with target := some { path := s.scan_path } } : Scanner).scan_results
          = none ∧
      ({ s with target := some { path := s.scan_path } } : Scanner).scan_timestamp
          = none ∧
      ∀ pth : String,
        Scanner.save_to_json fs
            { s with target := some { path := s.scan_path } } (.str pth) =
          .error (.dumpFailure .invalidState) := by
  refine ⟨?_, by simp [hres], by simp [hts], ?_⟩
  · simp [Scanner.scan, ScanTarget.exists, hmiss]
  · intro pth
    simp [Scanner.save_to_json, Scanner.saveCore, hres]

/-- C2 witness: the concrete missing-path scanner. -/
theorem C2_missing_target_witness :
    fsEmpty.pathExists "/does/not/exist" = false ∧
    Scanner.scan fsEmpty scannerMissing "2024-01-01T00:00:00" false none =
      .ok { scanner :=
              { scannerMissing with target := some { path := "/does/not/exist" } },
            ret := none, written := none, mkdirParent := none } ∧
    Scanner.save_to_json fsEmpty
        { scannerMissing with target := some { path := "/does/not/exist" } }
        (.str "scan_results/results.json") =
      .error (.dumpFailure .invalidState) := by
  have h := C2_missing_target fsEmpty scannerMissing "2024-01-01T00:00:00"
    false none rfl rfl rfl
  exact ⟨rfl, h.1, h.2.2.2 "scan_results/results.json"⟩

/-- C3 counterexample: for a path that does not exist, `entity_type` does
not fail — it silently returns the Directory classification `"dir"`. -/
theorem C3_counterexample :
    fsEmpty.stat "/missing" = none ∧
    ScanEntity.entity_type fsEmpty { path := "/missing" } = "dir" :=
  ⟨rfl, rfl⟩

/-- C3 amended: for every Entity whose path does not exist, `entity_type`
returns `"dir"` (the `else` branch of the `is_file` test); no NotFound
condition is raised. -/
theorem C3_missing_kind (fs : FSys) (e : ScanEntity)
    (h : fs.stat e.path = none) :
    ScanEntity.entity_type fs e = "dir" := by
  simp [ScanEntity.entity_type, FSys.is_file, h]

/-- C3 amended, witness at a concrete missing path. -/
theorem C3_missing_kind_witness :
    fsEmpty.stat "/missing" = none ∧
    ScanEntity.entity_type fsEmpty { path := "/missing" } = "dir" :=
  ⟨rfl, C3_missing_kind fsEmpty { path := "/missing" } rfl⟩

/-- C4 counterexample: the formatter maps `0` to `"0.0 B"`, not to the
claimed `"0 bytes"` (only a `None` size formats as `"0 bytes"`). -/
theorem C4_counterexample :
    bytes_to_human_readable (some 0) = "0.0 B" ∧
    ("0.0 B" : String) ≠ "0 bytes" :=
  ⟨rfl, by decide⟩

/-- C4 amended: `None` formats as `"0 bytes"`; `0` formats as `"0.0 B"`;
`1536` as `"1.5 KB"`; `1073741824` as `"1.0 GB"`; and in general the unit
index chosen is the base-1024 logarithm capped at the last defined unit —
the largest unit keeping the scaled value below 1024. -/
theorem C4_bytes_to_human :
    bytes_to_human_readable none = "0 bytes" ∧
    bytes_to_human_readable (some 0) = "0.0 B" ∧
    bytes_to_human_readable (some 1536) = "1.5 KB" ∧
    bytes_to_human_readable (some 1073741824) = "1.0 GB" ∧
    ∀ n : Nat, humanUnitIndex n = min (Nat.log 1024 n) 8 :=
  ⟨rfl, rfl, rfl, rfl, humanUnitIndex_eq⟩

/-- C5 counterexample: `ScanTarget` construction from the empty string does
not raise — the validator accepts it (and `Path("")` is `"."`). -/
theorem C5_counterexample :
    ScanTarget.validate_path (PyVal.str "") = Except.ok "." :=
  rfl

/-- C5 amended: path validation of `ScanTarget` and `ScanEntity` never
rejects an empty path; it fails exactly when the value is `None` or not a
`str`/`Path` (no filesystem access is involved either way). -/
theorem C5_validators :
    (∀ s : String, ScanTarget.validate_path (.str s) = .ok (pyPath s)) ∧
    (∀ s : String, ScanTarget.validate_path (.path s) = .ok s) ∧
    ScanTarget.validate_path .noneV = .error .invalidArgument ∧
    ScanTarget.validate_path .other = .error .typeError ∧
    (∀ s : String, ScanEntity.validate_path (.str s) = .ok s) ∧
    (∀ s : String, ScanEntity.validate_path (.path s) = .ok s) ∧
    ScanEntity.validate_path .noneV = .error .typeError ∧
    ScanEntity.validate_path .other = .error .typeError :=
  ⟨fun _ => rfl, fun _ => rfl, rfl, rfl, fun _ => rfl, fun _ => rfl, rfl, rfl⟩

/-- C6 (code bug): with `save_results` set, a missing `output_file` is
rejected with the invalid-argument condition and the parent directory of a
provided `output_file` is created — but the snapshot is written to
`DEFAULT_SCAN_RESULTS_FILE`, not to the provided path, because the source
calls `self.save_to_json()` without forwarding `output_file`. -/
theorem C6_persist_wrong_file :
    Scanner.scan fsPersist scannerPersist "ts" true none =
      .error .invalidArgument ∧
    (Scanner.scan fsPersist scannerPersist "ts" true
        (some "/tmp/out/results.json")).map
        (fun st => (st.written.map WriteOp.path, st.mkdirParent)) =
      .ok (some DEFAULT_SCAN_RESULTS_FILE, some "/tmp/out") ∧
    DEFAULT_SCAN_RESULTS_FILE ≠ "/tmp/out/results.json" :=
  ⟨rfl, by decide, by decide⟩

/-- C7 counterexample: a directory whose only direct child is a dangling
symlink scans to `count_files + count_dirs = 0`, yet it has one direct
child. -/
theorem C7_counterexample :
    (ScanTarget.run_scan fsBrokenChild { path := "/d7" }).map
        (fun o => o.map (fun r => r.count_files + r.count_dirs)) =
      .ok (some 0) ∧
    (fsBrokenChild.children "/d7").length = 1 ∧ (0 : Nat) ≠ 1 :=
  ⟨rfl, rfl, by decide⟩

/-- C7 amended: for every existing directory, `run_scan` yields a result set
with `count_files + count_dirs` equal to the number of direct children that
resolve to a regular file or to a directory (each such child counted exactly
once; children that are dangling symlinks or special files are not counted). -/
theorem C7_scan_counts (fs : FSys) (p : String) (st : Stat)
    (hstat : fs.stat p = some st) (hdir : st.kind = NodeKind.dir) :
    (ScanTarget.run_scan fs { path := p }).map
        (fun o => o.map (fun r => r.count_files + r.count_dirs)) =
      .ok (some ((fs.children p).countP
        (fun c => c.kind.is_file || c.kind.is_dir))) := by
  have hex : ScanTarget.exists fs { path := p } = true := by
    simp [ScanTarget.exists, FSys.pathExists, hstat, hdir, NodeKind.resolves]
  have hscan : fs.scandirE p = .ok (fs.children p) := by
    simp [FSys.scandirE, hstat, hdir]
  simp [ScanTarget.run_scan, ScanTarget.get_files, ScanTarget.get_dirs, hex,
        hscan, Except.map, Option.map, ScanResults.count_files,
        ScanResults.count_dirs, List.length_map,
        ← List.countP_eq_length_filter, countP_file_dir]

/-- C7 amended, witness: a directory with a regular file, a subdirectory and
a special child counts 2 of its 3 children. -/
theorem C7_scan_counts_witness :
    (ScanTarget.run_scan fsMixed { path := "/w" }).map
        (fun o => o.map (fun r => r.count_files + r.count_dirs)) =
      .ok (some 2) := by
  have h := C7_scan_counts fsMixed "/w"
    { kind := .dir, ctime := 0, mtime := 0 } rfl rfl
  rw [h]
  rfl

/-- C8: during `save_to_json`, a per-entity stat failure (an entity of the
result set whose path no longer resolves) aborts the whole serialization
with the NotFound cause attached inside the dump failure, and no write
happens — the serialization of the entire result set must succeed before
the output file is opened. -/
theorem C8_dump_aborts (fs : FSys) (s : Scanner) (r : ScanResults)
    (pth : String) (hres : s.scan_results = some r)
    (hbad : ∃ e ∈ r.files.getD [] ++ r.dirs.getD [],
      fs.statFollow e.path = none) :
    Scanner.save_to_json fs s (.str pth) =
      .error (.dumpFailure .notFound) := by
  obtain ⟨e, hmem, hnone⟩ := hbad
  have hdump := results_dump_err fs r e hmem hnone
  simp [Scanner.save_to_json, Scanner.saveCore, hres, hdump]

/-- C8 witness: a results set holding the vanished entity `/d8/gone`. -/
theorem C8_dump_aborts_witness :
    Scanner.save_to_json fsVanished scannerVanished (.str "out.json") =
      .error (.dumpFailure .notFound) := by
  refine C8_dump_aborts fsVanished scannerVanished _ "out.json" rfl
    ⟨{ path := "/d8/gone" }, ?_, rfl⟩
  simp [scannerVanished]

/-- C9 counterexample: reading the `all` view of a result set whose `files`
is absent replaces `files` with an empty list — the field is not exactly
what it was before the call. -/
theorem C9_counterexample :
    (ScanResults.all { scan_timestamp := some "t", scan_target := some "/x",
                       files := none, dirs := some [] }).2.files = some [] ∧
    ({ scan_timestamp := some "t", scan_target := some "/x",
       files := none, dirs := some [] } : ScanResults).files = none :=
  ⟨rfl, rfl⟩

/-- C9 amended: `count_files` and `count_dirs` are pure reads; `all`
preserves `scan_target` and `scan_timestamp` and leaves `files` / `dirs`
unchanged except that an absent (`None`) sequence is replaced by an empty
list — so on a result set whose two sequences are present, `all` has no
side effect at all. -/
theorem C9_read_frame (r : ScanResults) :
    ((r.all).2.scan_target = r.scan_target ∧
     (r.all).2.scan_timestamp = r.scan_timestamp) ∧
    (r.all).2.files = some (r.files.getD []) ∧
    (r.all).2.dirs = some (r.dirs.getD []) ∧
    (∀ fl dl, r.files = some fl → r.dirs = some dl → (r.all).2 = r) := by
  refine ⟨⟨rfl, rfl⟩, rfl, rfl, ?_⟩
  intro fl dl hf hd
  cases r
  simp_all [ScanResults.all]

/-- C9 amended, witness: on a result set with both sequences present, `all`
returns the state unchanged. -/
theorem C9_read_frame_witness :
    (ScanResults.all { scan_timestamp := some "t", scan_target := some "/x",
                       files := some [{ path := "/x/a" }],
                       dirs := some [] }).2 =
      { scan_timestamp := some "t", scan_target := some "/x",
        files := some [{ path := "/x/a" }], dirs := some [] } :=
  (C9_read_frame _).2.2.2 [{ path := "/x/a" }] [] rfl rfl

/-- C10: for a target whose path does not exist, `get_files` returns a
non-raising `None` (after printing a warning), while `get_dirs` performs no
existence check and propagates the underlying NotFound error from the
directory enumeration — the two sibling operations fail differently. -/
theorem C10_missing_enum (fs : FSys) (t : ScanTarget)
    (h : t.exists fs = false) :
    ScanTarget.get_files fs t = .ok none ∧
    ScanTarget.get_dirs fs t = .error .notFound := by
  refine ⟨by simp [ScanTarget.get_files, h], ?_⟩
  have hscan : fs.scandirE t.path = .error .notFound := by
    unfold ScanTarget.exists FSys.pathExists at h
    cases hstat : fs.stat t.path with
    | none => simp [FSys.scandirE, hstat]
    | some st =>
      rw [hstat] at h
      have h' : st.kind.resolves = false := by simpa using h
      cases hk : st.kind <;> rw [hk] at h' <;>
        simp_all [NodeKind.resolves, FSys.scandirE]
  simp [ScanTarget.get_dirs, hscan]

/-- C10 witness: a concrete missing path. -/
theorem C10_missing_enum_witness :
    ScanTarget.exists fsEmpty { path := "/nope" } = false ∧
    ScanTarget.get_files fsEmpty { path := "/nope" } = .ok none ∧
    ScanTarget.get_dirs fsEmpty { path := "/nope" } = .error .notFound := by
  have h := C10_missing_enum fsEmpty { path := "/nope" } rfl
  exact ⟨rfl, h.1, h.2⟩

end RedFileOps
